import Mathlib

/-!
# Ardour Push2 control surface: LED state and wire encoding

Shallow embedding of `libs/surfaces/push2/push2.h` (class `ArdourSurface::Push2`):
the `ButtonID` and `LED::State` enumerations, the `LED` base record, the `Pad`
and `Button` subtypes with their `state_msg` encoders, `Pad::coord`, the
button constructors and the no-op handler `relax`.

Conventions of the embedding:
* `uint8_t` is `Fin 256`;
* C++ `int` is `Int` (the properties below only use values far from the overflow range);
* an enumerator converts to `int` through its ordinal (`State.toNat`);
* a member-function pointer `void (Push2::*)()` is a function `σ → σ` on the
  engine state `σ`.
-/

namespace ArdourSurface
namespace Push2

/-- An 8-bit unsigned machine integer. -/
abbrev uint8_t := Fin 256

/-- Modelled from the spec: `MidiByteArray` (declared in `midi_byte_array.h`, which is
not among the sources) is the byte sequence of one wire message. -/
abbrev MidiByteArray := List Nat

/-- Modelled from the spec: the variadic constructor `MidiByteArray (count, first, ...)`
of `midi_byte_array.h` stores the first `count` arguments, each converted to a byte. -/
def MidiByteArray.mk (count : Nat) (args : List Nat) : MidiByteArray :=
  (args.take count).map (fun b => b % 256)

/-- The enumeration `Push2::ButtonID` (push2.h, lines 97-149). -/
inductive ButtonID where
  | TapTempo
  | Metronome
  | Upper1 | Upper2 | Upper3 | Upper4 | Upper5 | Upper6 | Upper7 | Upper8
  | Setup
  | User
  | Delete
  | AddDevice
  | Device
  | Mix
  | Undo
  | AddTrack
  | Browse
  | Clip
  | Mute
  | Solo
  | Stop
  | Lower1 | Lower2 | Lower3 | Lower4 | Lower5 | Lower6 | Lower7 | Lower8
  | Master
  | Convert
  | DoubleLoop
  | Quantize
  | Duplicate
  | New
  | FixedLength
  | Automate
  | RecordEnable
  | Play
  | Fwd32ndT
  | Fwd32nd
  | Fwd16thT
  | Fwd16th
  | Fwd8thT
  | Fwd8th
  | Fwd4trT
  | Fwd4tr
  | Up
  | Right
  | Down
  | Left
  | Repeat
  | Accent
  | Scale
  | Layout
  | Note
  | Session
  | OctaveUp
  | PageRight
  | OctaveDown
  | PageLeft
  | Shift
  | Select
  deriving DecidableEq, Repr

/-- The enumeration `Push2::LED::State` (push2.h, lines 153-170). -/
inductive LED.State where
  | Off
  | OneShot24th
  | OneShot16th
  | OneShot8th
  | OneShot4th
  | OneShot2th
  | Pulsing24th
  | Pulsing16th
  | Pulsing8th
  | Pulsing4th
  | Pulsing2th
  | Blinking24th
  | Blinking16th
  | Blinking8th
  | Blinking4th
  | Blinking2th
  deriving DecidableEq, Repr, Fintype

/-- The integer value of an enumerator of `LED::State`: no enumerator has an initialiser,
so they count up from zero in declaration order. -/
def LED.State.toNat : LED.State → Nat
  | .Off => 0
  | .OneShot24th => 1
  | .OneShot16th => 2
  | .OneShot8th => 3
  | .OneShot4th => 4
  | .OneShot2th => 5
  | .Pulsing24th => 6
  | .Pulsing16th => 7
  | .Pulsing8th => 8
  | .Pulsing4th => 9
  | .Pulsing2th => 10
  | .Blinking24th => 11
  | .Blinking16th => 12
  | .Blinking8th => 13
  | .Blinking4th => 14
  | .Blinking2th => 15

/-- The enumerator of `LED::State` with a given integer value, when there is one
(the inverse of `State.toNat`). -/
def LED.State.ofNat? : Nat → Option LED.State
  | 0 => some .Off
  | 1 => some .OneShot24th
  | 2 => some .OneShot16th
  | 3 => some .OneShot8th
  | 4 => some .OneShot4th
  | 5 => some .OneShot2th
  | 6 => some .Pulsing24th
  | 7 => some .Pulsing16th
  | 8 => some .Pulsing8th
  | 9 => some .Pulsing4th
  | 10 => some .Pulsing2th
  | 11 => some .Blinking24th
  | 12 => some .Blinking16th
  | 13 => some .Blinking8th
  | 14 => some .Blinking4th
  | 15 => some .Blinking2th
  | _ => none

/-- The data members of `struct LED` (push2.h, lines 184-187). -/
structure LED where
  _extra : uint8_t
  _color_index : uint8_t
  _state : LED.State
  deriving DecidableEq, Repr

/-- Constructor `LED (uint8_t e) : _extra (e), _color_index (0), _state (Off)`. -/
def LED.new (e : uint8_t) : LED :=
  ⟨e, 0, LED.State.Off⟩

/-- Accessor `uint8_t extra () const`. -/
def LED.extra (l : LED) : uint8_t := l._extra

/-- Accessor `State state () const`. -/
def LED.state (l : LED) : LED.State := l._state

/-- The members of `struct Pad : public LED` (push2.h, lines 190-203). -/
structure Pad extends LED where
  x : Int
  y : Int
  deriving DecidableEq, Repr

/-- Constructor `Pad (int xx, int yy, uint8_t ex) : LED (ex), x (xx), y (yy)`. -/
def Pad.new (xx yy : Int) (ex : uint8_t) : Pad :=
  ⟨LED.new ex, xx, yy⟩

/-- Encoder `Pad::state_msg`:
`MidiByteArray (3, 0x90|_state, _extra, (_state == Off) ? 0 : _color_index)`. -/
def Pad.state_msg (p : Pad) : MidiByteArray :=
  MidiByteArray.mk 3
    [0x90 ||| p._state.toNat, p._extra.val,
     if p._state = LED.State.Off then 0 else p._color_index.val]

/-- Member `int coord () const`, whose body is `return (y * 8) + x;`. -/
def Pad.coord (p : Pad) : Int := (p.y * 8) + p.x

/-- Member `int note_number() const`: the wire id. -/
def Pad.note_number (p : Pad) : Int := (p.toLED.extra.val : Int)

/-- The handler `void relax ()` of the engine (push2.h, line 258): its body is empty. -/
def relax {σ : Type} (engine : σ) : σ := engine

/-- The members of `struct Button : public LED` (push2.h, lines 205-233); the two method
pointers act on the engine state `σ`. -/
structure Button (σ : Type) extends LED where
  id : ButtonID
  press_method : σ → σ
  release_method : σ → σ

/-- Constructor `Button (ButtonID bb, uint8_t ex)`. -/
def Button.new {σ : Type} (bb : ButtonID) (ex : uint8_t) : Button σ :=
  ⟨LED.new ex, bb, relax, relax⟩

/-- Constructor `Button (ButtonID bb, uint8_t ex, void (Push2::*press)())`. -/
def Button.new_press {σ : Type} (bb : ButtonID) (ex : uint8_t) (press : σ → σ) :
    Button σ :=
  ⟨LED.new ex, bb, press, relax⟩

/-- Constructor
`Button (ButtonID bb, uint8_t ex, void (Push2::*press)(), void (Push2::*release)())`. -/
def Button.new_press_release {σ : Type} (bb : ButtonID) (ex : uint8_t)
    (press release : σ → σ) : Button σ :=
  ⟨LED.new ex, bb, press, release⟩

/-- Encoder `Button::state_msg`:
`MidiByteArray (3, 0xb0|_state, _extra, (_state == Off) ? 0 : _color_index)`. -/
def Button.state_msg {σ : Type} (b : Button σ) : MidiByteArray :=
  MidiByteArray.mk 3
    [0xb0 ||| b._state.toNat, b._extra.val,
     if b._state = LED.State.Off then 0 else b._color_index.val]

/-- Member `int controller_number() const`: the wire id. -/
def Button.controller_number {σ : Type} (b : Button σ) : Int := (b.toLED.extra.val : Int)

/-- The type `struct ColorButton : public Button`: no member of its own. -/
structure ColorButton (σ : Type) extends Button σ

/-- Constructor `ColorButton (ButtonID bb, uint8_t ex) : Button (bb, ex)`. -/
def ColorButton.new {σ : Type} (bb : ButtonID) (ex : uint8_t) : ColorButton σ :=
  ⟨Button.new bb ex⟩

/-- Constructor `ColorButton (bb, ex, press) : Button (bb, ex, press)`. -/
def ColorButton.new_press {σ : Type} (bb : ButtonID) (ex : uint8_t)
    (press : σ → σ) : ColorButton σ :=
  ⟨Button.new_press bb ex press⟩

/-- Constructor `ColorButton (bb, ex, press, release) : Button (bb, ex, press, release)`. -/
def ColorButton.new_press_release {σ : Type} (bb : ButtonID) (ex : uint8_t)
    (press release : σ → σ) : ColorButton σ :=
  ⟨Button.new_press_release bb ex press release⟩

/-- The type `struct WhiteButton : public Button`: no member of its own. -/
structure WhiteButton (σ : Type) extends Button σ

/-- Constructor `WhiteButton (ButtonID bb, uint8_t ex) : Button (bb, ex)`. -/
def WhiteButton.new {σ : Type} (bb : ButtonID) (ex : uint8_t) : WhiteButton σ :=
  ⟨Button.new bb ex⟩

/-- Constructor `WhiteButton (bb, ex, press) : Button (bb, ex, press)`. -/
def WhiteButton.new_press {σ : Type} (bb : ButtonID) (ex : uint8_t)
    (press : σ → σ) : WhiteButton σ :=
  ⟨Button.new_press bb ex press⟩

/-- Constructor `WhiteButton (bb, ex, press, release) : Button (bb, ex, press, release)`. -/
def WhiteButton.new_press_release {σ : Type} (bb : ButtonID) (ex : uint8_t)
    (press release : σ → σ) : WhiteButton σ :=
  ⟨Button.new_press_release bb ex press release⟩

/-! ## Parts described by the specification only -/

/-- The three timing classes of the specification's LED state machine. -/
inductive Timing where
  | OneShot
  | Pulsing
  | Blinking
  deriving DecidableEq, Repr, Fintype

/-- The five note-division rates of the specification's LED state machine. -/
inductive Rate where
  | r24th
  | r16th
  | r8th
  | r4th
  | half
  deriving DecidableEq, Repr, Fintype

/-- The specification's description of the states, `Off` or a timing class at a rate,
mapped to the enumerator of `LED::State` that carries that name. -/
def specState : Option (Timing × Rate) → LED.State
  | none => .Off
  | some (.OneShot, .r24th) => .OneShot24th
  | some (.OneShot, .r16th) => .OneShot16th
  | some (.OneShot, .r8th) => .OneShot8th
  | some (.OneShot, .r4th) => .OneShot4th
  | some (.OneShot, .half) => .OneShot2th
  | some (.Pulsing, .r24th) => .Pulsing24th
  | some (.Pulsing, .r16th) => .Pulsing16th
  | some (.Pulsing, .r8th) => .Pulsing8th
  | some (.Pulsing, .r4th) => .Pulsing4th
  | some (.Pulsing, .half) => .Pulsing2th
  | some (.Blinking, .r24th) => .Blinking24th
  | some (.Blinking, .r16th) => .Blinking16th
  | some (.Blinking, .r8th) => .Blinking8th
  | some (.Blinking, .r4th) => .Blinking4th
  | some (.Blinking, .half) => .Blinking2th

/-- The kinds of inbound event named by the specification's `decode_event`. -/
inductive EventKind where
  | NoteOn
  | NoteOff
  | Controller
  | PitchBend
  | SysEx
  | Unrecognized
  deriving DecidableEq, Repr

/-- The result of the specification's `decode_event`: the message family, the
channel/state nibble, the id (first data byte) and the value (second data byte). -/
structure Event where
  kind : EventKind
  state : Nat
  id : Nat
  value : Nat
  deriving DecidableEq, Repr

/-- Modelled from the spec: `decode_event` (no decoder is among the sources) is a pure
parse: a message starting with `0xF0` is a system-exclusive payload; a 3-byte message is
read by the high nibble of its status byte (`0x8` note off, `0x9` note on, `0xB`
controller, `0xE` pitch bend), its low nibble being the state, the first data byte the id
and the second the value; every other message is reported as unrecognized. -/
def decode_event (bytes : MidiByteArray) : Event :=
  if bytes.head? = some 0xF0 then ⟨.SysEx, 0, 0, 0⟩
  else
    match bytes with
    | [status, data1, data2] =>
      if status / 16 = 0x8 then ⟨.NoteOff, status % 16, data1, data2⟩
      else if status / 16 = 0x9 then ⟨.NoteOn, status % 16, data1, data2⟩
      else if status / 16 = 0xB then ⟨.Controller, status % 16, data1, data2⟩
      else if status / 16 = 0xE then ⟨.PitchBend, status % 16, data1, data2⟩
      else ⟨.Unrecognized, 0, 0, 0⟩
    | _ => ⟨.Unrecognized, 0, 0, 0⟩

/-- A control of the surface: the dynamic type behind an `LED`, a pad or a button. -/
inductive Control (σ : Type) where
  | pad (p : Pad)
  | button (b : Button σ)

/-- The virtual call `LED::state_msg`, dispatched on the dynamic type. -/
def Control.state_msg {σ : Type} : Control σ → MidiByteArray
  | .pad p => p.state_msg
  | .button b => b.state_msg

theorem State.toNat_lt (s : LED.State) : s.toNat < 16 := by
  cases s <;> decide

theorem State.note_status (s : LED.State) :
    (0x90 ||| s.toNat) = 0x90 + s.toNat := by
  cases s <;> rfl

theorem State.cc_status (s : LED.State) :
    (0xb0 ||| s.toNat) = 0xb0 + s.toNat := by
  cases s <;> rfl

theorem State.ofNat_toNat (s : LED.State) : LED.State.ofNat? s.toNat = some s := by
  cases s <;> rfl

theorem State.toNat_inj {s t : LED.State} (h : s.toNat = t.toNat) : s = t := by
  have hs := State.ofNat_toNat s
  rw [h, State.ofNat_toNat t] at hs
  exact (Option.some.inj hs).symm

theorem Pad.pad_msg_eq (p : Pad) :
    p.state_msg =
      [0x90 + p._state.toNat, p._extra.val,
       if p._state = LED.State.Off then 0 else p._color_index.val] := by
  have hs := State.toNat_lt p._state
  have he := p._extra.isLt
  have hc := p._color_index.isLt
  have h1 : (0x90 + p._state.toNat) % 256 = 0x90 + p._state.toNat := by omega
  have h2 : p._extra.val % 256 = p._extra.val := by omega
  have h3 : p._color_index.val % 256 = p._color_index.val := by omega
  simp only [Pad.state_msg, MidiByteArray.mk, State.note_status, List.take, List.map, h1, h2]
  split
  · rfl
  · rw [h3]

theorem Button.button_msg_eq {σ : Type} (b : Button σ) :
    b.state_msg =
      [0xb0 + b._state.toNat, b._extra.val,
       if b._state = LED.State.Off then 0 else b._color_index.val] := by
  have hs := State.toNat_lt b._state
  have he := b._extra.isLt
  have hc := b._color_index.isLt
  have h1 : (0xb0 + b._state.toNat) % 256 = 0xb0 + b._state.toNat := by omega
  have h2 : b._extra.val % 256 = b._extra.val := by omega
  have h3 : b._color_index.val % 256 = b._color_index.val := by omega
  simp only [Button.state_msg, MidiByteArray.mk, State.cc_status, List.take, List.map, h1, h2]
  split
  · rfl
  · rw [h3]

/-! ## Wire encoding of pads and buttons -/

/-- C1: for every LED state `s`, color index `c` and wire id `w` (bytes), the message of a
pad with that state, color and wire id is exactly the three bytes `0x90 | ordinal(s)`, `w`,
`d`, where `d` is `0` when `s` is `Off` and `c` otherwise. -/
theorem pad_state_msg_bytes (s : LED.State) (c w : uint8_t) (x y : Int) :
    (Pad.mk ⟨w, c, s⟩ x y).state_msg =
      [0x90 ||| s.toNat, w.val, if s = LED.State.Off then 0 else c.val] := by
  rw [Pad.pad_msg_eq, State.note_status]

/-- C2: the message of a button with state `s`, color `c` and wire id `w` is the three bytes
`0xB0 | ordinal(s)`, `w`, `(s == Off ? 0 : c)`: its two data bytes are those of the pad
message for the same `(s, c, w)`, and the two status bytes have the same low nibble and the
high nibbles `0xB` (button) and `0x9` (pad). -/
theorem button_state_msg_bytes {σ : Type} (s : LED.State) (c w : uint8_t) (bb : ButtonID)
    (press release : σ → σ) (x y : Int) :
    (Button.mk ⟨w, c, s⟩ bb press release).state_msg =
        [0xb0 ||| s.toNat, w.val, if s = LED.State.Off then 0 else c.val]
      ∧ (Button.mk ⟨w, c, s⟩ bb press release).state_msg.tail
          = (Pad.mk ⟨w, c, s⟩ x y).state_msg.tail
      ∧ (Button.mk ⟨w, c, s⟩ bb press release).state_msg.head? = some (0xb0 ||| s.toNat)
      ∧ (Pad.mk ⟨w, c, s⟩ x y).state_msg.head? = some (0x90 ||| s.toNat)
      ∧ (0xb0 ||| s.toNat) / 16 = 0xb
      ∧ (0x90 ||| s.toNat) / 16 = 0x9
      ∧ (0xb0 ||| s.toNat) % 16 = (0x90 ||| s.toNat) % 16 := by
  have hs := State.toNat_lt s
  rw [Button.button_msg_eq, Pad.pad_msg_eq, State.note_status, State.cc_status]
  refine ⟨rfl, rfl, rfl, rfl, ?_, ?_, ?_⟩ <;> omega

/-- C3: round trip. Decoding the message of a pad with state `s`, color `c` and wire id `w`
gives a note-on event whose state nibble is the ordinal of `s` (so that the state read back
from it is `s`), whose id is `w` and whose value is `0` when `s` is `Off` and `c`
otherwise. -/
theorem decode_pad_state_msg (s : LED.State) (c w : uint8_t) (x y : Int) :
    decode_event (Pad.mk ⟨w, c, s⟩ x y).state_msg =
        ⟨EventKind.NoteOn, s.toNat, w.val, if s = LED.State.Off then 0 else c.val⟩
      ∧ LED.State.ofNat? (decode_event (Pad.mk ⟨w, c, s⟩ x y).state_msg).state = some s := by
  have hs := State.toNat_lt s
  have h0 : ¬ (0x90 + s.toNat = 0xF0) := by omega
  have h1 : (0x90 + s.toNat) / 16 = 0x9 := by omega
  have h2 : (0x90 + s.toNat) % 16 = s.toNat := by omega
  have key : decode_event (Pad.mk ⟨w, c, s⟩ x y).state_msg =
      ⟨EventKind.NoteOn, s.toNat, w.val, if s = LED.State.Off then 0 else c.val⟩ := by
    rw [Pad.pad_msg_eq]
    simp only [decode_event, List.head?, Option.some.injEq, h0, if_false, h1, h2]
    rfl
  refine ⟨key, ?_⟩
  rw [key]
  exact State.ofNat_toNat s

/-- C4: `LED::State` has exactly 16 values, `Off` and each of the three timing classes at
each of the five rates; their ordinals are pairwise distinct and are exactly `0..15`; the
status bytes `0x90 | ordinal(s)` and `0xB0 | ordinal(s)` have high nibble `0x9` and `0xB`
and low nibble `ordinal(s)`. -/
theorem state_nibble :
    Fintype.card LED.State = 16
      ∧ Function.Bijective specState
      ∧ (∀ t r, specState (some (t, r)) ≠ LED.State.Off)
      ∧ Function.Injective LED.State.toNat
      ∧ (∀ n : Nat, n < 16 ↔ ∃ s : LED.State, s.toNat = n)
      ∧ (∀ s : LED.State, (0x90 ||| s.toNat) / 16 = 0x9 ∧ (0x90 ||| s.toNat) % 16 = s.toNat)
      ∧ (∀ s : LED.State,
          (0xb0 ||| s.toNat) / 16 = 0xb ∧ (0xb0 ||| s.toNat) % 16 = s.toNat) := by
  refine ⟨rfl, ⟨?_, ?_⟩, ?_, ?_, ?_, ?_, ?_⟩
  · intro a b h
    rcases a with _ | ⟨t, r⟩ <;> rcases b with _ | ⟨u, q⟩
    · rfl
    · cases u <;> cases q <;> cases h
    · cases t <;> cases r <;> cases h
    · cases t <;> cases r <;> cases u <;> cases q <;> first | rfl | cases h
  · intro s
    cases s
    · exact ⟨none, rfl⟩
    · exact ⟨some (.OneShot, .r24th), rfl⟩
    · exact ⟨some (.OneShot, .r16th), rfl⟩
    · exact ⟨some (.OneShot, .r8th), rfl⟩
    · exact ⟨some (.OneShot, .r4th), rfl⟩
    · exact ⟨some (.OneShot, .half), rfl⟩
    · exact ⟨some (.Pulsing, .r24th), rfl⟩
    · exact ⟨some (.Pulsing, .r16th), rfl⟩
    · exact ⟨some (.Pulsing, .r8th), rfl⟩
    · exact ⟨some (.Pulsing, .r4th), rfl⟩
    · exact ⟨some (.Pulsing, .half), rfl⟩
    · exact ⟨some (.Blinking, .r24th), rfl⟩
    · exact ⟨some (.Blinking, .r16th), rfl⟩
    · exact ⟨some (.Blinking, .r8th), rfl⟩
    · exact ⟨some (.Blinking, .r4th), rfl⟩
    · exact ⟨some (.Blinking, .half), rfl⟩
  · intro t r h
    cases t <;> cases r <;> cases h
  · intro s t h
    exact State.toNat_inj h
  · intro n
    constructor
    · intro hn
      interval_cases n
      · exact ⟨.Off, rfl⟩
      · exact ⟨.OneShot24th, rfl⟩
      · exact ⟨.OneShot16th, rfl⟩
      · exact ⟨.OneShot8th, rfl⟩
      · exact ⟨.OneShot4th, rfl⟩
      · exact ⟨.OneShot2th, rfl⟩
      · exact ⟨.Pulsing24th, rfl⟩
      · exact ⟨.Pulsing16th, rfl⟩
      · exact ⟨.Pulsing8th, rfl⟩
      · exact ⟨.Pulsing4th, rfl⟩
      · exact ⟨.Pulsing2th, rfl⟩
      · exact ⟨.Blinking24th, rfl⟩
      · exact ⟨.Blinking16th, rfl⟩
      · exact ⟨.Blinking8th, rfl⟩
      · exact ⟨.Blinking4th, rfl⟩
      · exact ⟨.Blinking2th, rfl⟩
    · rintro ⟨s, rfl⟩
      exact State.toNat_lt s
  · intro s
    have hs := State.toNat_lt s
    rw [State.note_status]
    constructor <;> omega
  · intro s
    have hs := State.toNat_lt s
    rw [State.cc_status]
    constructor <;> omega

/-! ## The LED state store -/

/-- C6: a `Button`, `ColorButton` or `WhiteButton` constructed from `(id, wire id)` has
`relax` as both handlers; constructed with a press handler it has that handler and `relax`
on release; constructed with both it has the two handlers given. In every case its id and
wire id are the constructor arguments, its color index is 0 and its state is `Off`; and
`relax` returns the engine state unchanged. -/
theorem button_constructors {σ : Type} (bb : ButtonID) (ex : uint8_t)
    (press release : σ → σ) :
    (Button.new bb ex : Button σ) = ⟨⟨ex, 0, LED.State.Off⟩, bb, relax, relax⟩
      ∧ Button.new_press bb ex press = ⟨⟨ex, 0, LED.State.Off⟩, bb, press, relax⟩
      ∧ Button.new_press_release bb ex press release
          = ⟨⟨ex, 0, LED.State.Off⟩, bb, press, release⟩
      ∧ (ColorButton.new bb ex : ColorButton σ).toButton
          = ⟨⟨ex, 0, LED.State.Off⟩, bb, relax, relax⟩
      ∧ (ColorButton.new_press bb ex press).toButton
          = ⟨⟨ex, 0, LED.State.Off⟩, bb, press, relax⟩
      ∧ (ColorButton.new_press_release bb ex press release).toButton
          = ⟨⟨ex, 0, LED.State.Off⟩, bb, press, release⟩
      ∧ (WhiteButton.new bb ex : WhiteButton σ).toButton
          = ⟨⟨ex, 0, LED.State.Off⟩, bb, relax, relax⟩
      ∧ (WhiteButton.new_press bb ex press).toButton
          = ⟨⟨ex, 0, LED.State.Off⟩, bb, press, relax⟩
      ∧ (WhiteButton.new_press_release bb ex press release).toButton
          = ⟨⟨ex, 0, LED.State.Off⟩, bb, press, release⟩
      ∧ (∀ engine : σ, relax engine = engine)
      ∧ (∀ engine : σ,
          (Button.new bb ex : Button σ).press_method engine = engine
            ∧ (Button.new bb ex : Button σ).release_method engine = engine
            ∧ (Button.new_press bb ex press).release_method engine = engine) :=
  ⟨rfl, rfl, rfl, rfl, rfl, rfl, rfl, rfl, rfl, fun _ => rfl, fun _ => ⟨rfl, rfl, rfl⟩⟩

/-! ## Pad coordinates -/

/-- C7: `coord` is `y*8 + x`; for pads on the 8x8 grid (`0 <= x < 8`, `0 <= y < 8`) it lies
in `0..63`, `x` is `coord mod 8` and `y` is `coord div 8`, and two pads have the same
`coord` exactly when they have the same `(x, y)`. -/
theorem coord_key (p q : Pad)
    (hp : 0 ≤ p.x ∧ p.x < 8 ∧ 0 ≤ p.y ∧ p.y < 8)
    (hq : 0 ≤ q.x ∧ q.x < 8 ∧ 0 ≤ q.y ∧ q.y < 8) :
    p.coord = p.y * 8 + p.x
      ∧ 0 ≤ p.coord ∧ p.coord ≤ 63
      ∧ p.coord % 8 = p.x ∧ p.coord / 8 = p.y
      ∧ (p.coord = q.coord ↔ p.x = q.x ∧ p.y = q.y) := by
  obtain ⟨h1, h2, h3, h4⟩ := hp
  obtain ⟨h5, h6, h7, h8⟩ := hq
  refine ⟨rfl, ?_, ?_, ?_, ?_, ?_, ?_⟩ <;> simp only [Pad.coord] <;> omega

/-- Witness for C7: the pads at `(3, 2)` and `(2, 3)`. -/
theorem coord_key_witness :
    (Pad.new 3 2 52).coord = 2 * 8 + 3
      ∧ 0 ≤ (Pad.new 3 2 52).coord ∧ (Pad.new 3 2 52).coord ≤ 63
      ∧ (Pad.new 3 2 52).coord % 8 = 3 ∧ (Pad.new 3 2 52).coord / 8 = 2
      ∧ ((Pad.new 3 2 52).coord = (Pad.new 2 3 62).coord ↔ (3 : Int) = 2 ∧ (2 : Int) = 3) :=
  coord_key (Pad.new 3 2 52) (Pad.new 2 3 62) (by decide) (by decide)

/-- C8: the pad at column 0 of row 1 has `coord` 8, while the comment on `CoordPadMap`
documents the key as `row * 64 + column`, which is 64 there. -/
theorem coord_row_one :
    (Pad.new 0 1 44).coord = 8 ∧ (Pad.new 0 1 44).coord ≠ 1 * 64 + 0 := by
  decide

/-! ## Separation of state, color and message family -/

theorem LED.effective_color_val (l : LED) :
    (if l._state = LED.State.Off then 0 else l._color_index.val)
      = (if l._state = LED.State.Off then (0 : uint8_t) else l._color_index).val := by
  split <;> rfl

theorem LED.triple_of_bytes {a b : Nat} {l m : LED}
    (h : [a + l._state.toNat, l._extra.val,
          if l._state = LED.State.Off then 0 else l._color_index.val]
       = [b + m._state.toNat, m._extra.val,
          if m._state = LED.State.Off then 0 else m._color_index.val])
    (hab : a = b) :
    l._state = m._state ∧ l._extra = m._extra
      ∧ (if l._state = LED.State.Off then (0 : uint8_t) else l._color_index)
        = (if m._state = LED.State.Off then (0 : uint8_t) else m._color_index) := by
  rw [LED.effective_color_val, LED.effective_color_val] at h
  simp only [List.cons.injEq, and_true] at h
  obtain ⟨h1, h2, h3⟩ := h
  refine ⟨State.toNat_inj (by omega), Fin.ext h2, Fin.ext h3⟩

/-- C9: "Off" is not "color index 0". (i) In state `Off` the message of a pad or a button
does not depend on the stored color index. (ii) For a state `s` other than `Off`, the
message of a pad or button with color index 0 differs from the `Off` message of the same
wire id, whatever color that one stores. (iii) The state is always recoverable from the
message: it is the enumerator whose ordinal is the low nibble of the status byte, so two
pads (two buttons) with the same message have the same state. -/
theorem off_is_not_color_zero {σ : Type} :
    (∀ (w c1 c2 : uint8_t) (x1 y1 x2 y2 : Int),
        (Pad.mk ⟨w, c1, LED.State.Off⟩ x1 y1).state_msg
          = (Pad.mk ⟨w, c2, LED.State.Off⟩ x2 y2).state_msg)
      ∧ (∀ (w c1 c2 : uint8_t) (i1 i2 : ButtonID) (p1 r1 p2 r2 : σ → σ),
        (Button.mk ⟨w, c1, LED.State.Off⟩ i1 p1 r1).state_msg
          = (Button.mk ⟨w, c2, LED.State.Off⟩ i2 p2 r2).state_msg)
      ∧ (∀ (s : LED.State) (w c : uint8_t) (x1 y1 x2 y2 : Int), s ≠ LED.State.Off →
        (Pad.mk ⟨w, 0, s⟩ x1 y1).state_msg ≠ (Pad.mk ⟨w, c, LED.State.Off⟩ x2 y2).state_msg)
      ∧ (∀ (s : LED.State) (w c : uint8_t) (i1 i2 : ButtonID) (p1 r1 p2 r2 : σ → σ),
        s ≠ LED.State.Off →
        (Button.mk ⟨w, 0, s⟩ i1 p1 r1).state_msg
          ≠ (Button.mk ⟨w, c, LED.State.Off⟩ i2 p2 r2).state_msg)
      ∧ (∀ p : Pad, ∃ status : Nat, p.state_msg.head? = some status
          ∧ LED.State.ofNat? (status % 16) = some p._state)
      ∧ (∀ b : Button σ, ∃ status : Nat, b.state_msg.head? = some status
          ∧ LED.State.ofNat? (status % 16) = some b._state)
      ∧ (∀ p q : Pad, p.state_msg = q.state_msg → p._state = q._state)
      ∧ (∀ a b : Button σ, a.state_msg = b.state_msg → a._state = b._state) := by
  refine ⟨?_, ?_, ?_, ?_, ?_, ?_, ?_, ?_⟩
  · intro w c1 c2 x1 y1 x2 y2
    rw [Pad.pad_msg_eq, Pad.pad_msg_eq]
    rfl
  · intro w c1 c2 i1 i2 p1 r1 p2 r2
    rw [Button.button_msg_eq, Button.button_msg_eq]
    rfl
  · intro s w c x1 y1 x2 y2 hs h
    rw [Pad.pad_msg_eq, Pad.pad_msg_eq] at h
    exact hs (LED.triple_of_bytes h rfl).1
  · intro s w c i1 i2 p1 r1 p2 r2 hs h
    rw [Button.button_msg_eq, Button.button_msg_eq] at h
    exact hs (LED.triple_of_bytes h rfl).1
  · intro p
    have hs := State.toNat_lt p._state
    refine ⟨0x90 + p._state.toNat, by rw [Pad.pad_msg_eq]; rfl, ?_⟩
    have h2 : (0x90 + p._state.toNat) % 16 = p._state.toNat := by omega
    rw [h2, State.ofNat_toNat]
  · intro b
    have hs := State.toNat_lt b._state
    refine ⟨0xb0 + b._state.toNat, by rw [Button.button_msg_eq]; rfl, ?_⟩
    have h2 : (0xb0 + b._state.toNat) % 16 = b._state.toNat := by omega
    rw [h2, State.ofNat_toNat]
  · intro p q h
    rw [Pad.pad_msg_eq, Pad.pad_msg_eq] at h
    exact (LED.triple_of_bytes h rfl).1
  · intro a b h
    rw [Button.button_msg_eq, Button.button_msg_eq] at h
    exact (LED.triple_of_bytes h rfl).1

/-- Witness for C9: a pad blinking with color index 0 on note 36 against the `Off` pad on
note 36 that stores color 7. -/
theorem off_is_not_color_zero_witness :
    (Pad.mk ⟨36, 0, LED.State.Blinking4th⟩ 0 0).state_msg
      ≠ (Pad.mk ⟨36, 7, LED.State.Off⟩ 0 0).state_msg :=
  (@off_is_not_color_zero Unit).2.2.1 LED.State.Blinking4th 36 7 0 0 0 0 (by decide)

/-- C10: a pad message is never a button message (the pad status byte lies in `0x90..0x9F`,
the button status byte in `0xB0..0xBF`), whatever the states, colors and wire ids; and
within one family two controls have the same message exactly when they have the same state,
the same wire id and the same effective color (0 for `Off`, the color index otherwise). -/
theorem pad_button_disjoint {σ : Type} :
    (∀ (p : Pad) (b : Button σ), p.state_msg ≠ b.state_msg)
      ∧ (∀ p : Pad, ∃ status : Nat, p.state_msg.head? = some status
          ∧ 0x90 ≤ status ∧ status ≤ 0x9F)
      ∧ (∀ b : Button σ, ∃ status : Nat, b.state_msg.head? = some status
          ∧ 0xB0 ≤ status ∧ status ≤ 0xBF)
      ∧ (∀ p q : Pad, p.state_msg = q.state_msg ↔
          p._state = q._state ∧ p._extra = q._extra
            ∧ (if p._state = LED.State.Off then (0 : uint8_t) else p._color_index)
              = (if q._state = LED.State.Off then (0 : uint8_t) else q._color_index))
      ∧ (∀ a b : Button σ, a.state_msg = b.state_msg ↔
          a._state = b._state ∧ a._extra = b._extra
            ∧ (if a._state = LED.State.Off then (0 : uint8_t) else a._color_index)
              = (if b._state = LED.State.Off then (0 : uint8_t) else b._color_index)) := by
  refine ⟨?_, ?_, ?_, ?_, ?_⟩
  · intro p b h
    have hp := State.toNat_lt p._state
    have hb := State.toNat_lt b._state
    rw [Pad.pad_msg_eq, Button.button_msg_eq] at h
    have h1 := (List.cons.inj h).1
    omega
  · intro p
    have hs := State.toNat_lt p._state
    refine ⟨0x90 + p._state.toNat, by rw [Pad.pad_msg_eq]; rfl, ?_, ?_⟩ <;> omega
  · intro b
    have hs := State.toNat_lt b._state
    refine ⟨0xb0 + b._state.toNat, by rw [Button.button_msg_eq]; rfl, ?_, ?_⟩ <;> omega
  · intro p q
    rw [Pad.pad_msg_eq, Pad.pad_msg_eq, LED.effective_color_val,
      LED.effective_color_val]
    constructor
    · intro h
      rw [← LED.effective_color_val, ← LED.effective_color_val] at h
      exact LED.triple_of_bytes h rfl
    · rintro ⟨h1, h2, h3⟩
      rw [h3, h1, h2]
  · intro a b
    rw [Button.button_msg_eq, Button.button_msg_eq, LED.effective_color_val,
      LED.effective_color_val]
    constructor
    · intro h
      rw [← LED.effective_color_val, ← LED.effective_color_val] at h
      exact LED.triple_of_bytes h rfl
    · rintro ⟨h1, h2, h3⟩
      rw [h3, h1, h2]

/-- Witness for C10: two pads on note 40 in state `Off` storing different colors have the
same state, wire id and effective color, hence the same message. -/
theorem pad_button_disjoint_witness :
    (Pad.mk ⟨40, 3, LED.State.Off⟩ 4 0).state_msg
      = (Pad.mk ⟨40, 9, LED.State.Off⟩ 4 0).state_msg :=
  ((@pad_button_disjoint Unit).2.2.2.1 (Pad.mk ⟨40, 3, LED.State.Off⟩ 4 0)
    (Pad.mk ⟨40, 9, LED.State.Off⟩ 4 0)).mpr ⟨rfl, rfl, rfl⟩

end Push2
end ArdourSurface
